import Mathlib

/-!
Verification of the RabbitMQ publish/subscribe core of the `common` library
(`messaging/rabbitmq/publisher.go` and `messaging/rabbitmq/consumer.go`).

The Go code is shallowly embedded: JSON documents become an inductive `Json`
value type, the event envelope and its (de)serialization become pure Lean
functions mirroring `json.Marshal`/`json.Unmarshal` at the JSON-value level,
and the stateful publisher/consumer lifecycle becomes explicit state passing
(each mutex-protected critical section of the Go code is one atomic step of
the model).
-/

namespace RabbitCommon

/-- A JSON value.  Models the set of values `encoding/json` can produce when
unmarshalling into `interface{}` (numbers are modelled as integers; nothing
in the claims depends on fractional numbers). -/
inductive Json where
  | null
  | bool (b : Bool)
  | num (n : Int)
  | str (s : String)
  | arr (elems : List Json)
  | obj (fields : List (String × Json))

/-- Field lookup in a JSON object.  Go's `encoding/json` keeps the LAST
occurrence of a duplicated key, hence the recursion preferring the tail. -/
def jlookup : List (String × Json) → String → Option Json
  | [], _ => none
  | (k, v) :: rest, key =>
    match jlookup rest key with
    | some r => some r
    | none => if k = key then some v else none

/-- `EventEnvelope` from `publisher.go`: `event_type`, `occurred_at`,
`service_name` and an opaque `payload`.  `occurred_at` is the RFC3339 string
`time.Time` marshals to. -/
structure EventEnvelope where
  eventType : String
  occurredAt : String
  serviceName : String
  payload : Json

/-- `json.Marshal` of an `EventEnvelope` whose payload is already a JSON
value, at the JSON-value level: the struct tags produce exactly these four
object fields. -/
def encodeEnvelope (env : EventEnvelope) : Json :=
  .obj [("event_type", .str env.eventType),
        ("occurred_at", .str env.occurredAt),
        ("service_name", .str env.serviceName),
        ("payload", env.payload)]

/-- Decoding one `string`-typed struct field, as `json.Unmarshal` does: a
missing field or JSON `null` leaves the zero value `""`; any non-string,
non-null value is a type error. -/
def decodeStringField (fields : List (String × Json)) (key : String) : Option String :=
  match jlookup fields key with
  | none => some ""
  | some .null => some ""
  | some (.str s) => some s
  | some _ => none

/-- The binary exponent chosen by IEEE-754 double rounding of an integer
`a > 2 ^ 53`: the least `e` with `a < 2 ^ (53 + e)`, found by fuel-bounded
search (fuel 1024 covers every magnitude below the float64 overflow
threshold and far beyond). -/
def f64ExpGo : Nat → Nat → Nat → Nat
  | _, e, 0 => e
  | a, e, fuel + 1 => if a < 2 ^ (53 + e) then e else f64ExpGo a (e + 1) fuel

/-- Round a natural number to the nearest IEEE-754 double (round half to
even), as Go's `encoding/json` does when unmarshalling a number into
`interface{}`: magnitudes up to `2 ^ 53` are exact; larger ones keep a
53-bit significand; values that round to `2 ^ 1024` or beyond overflow and
make `json.Unmarshal` return an out-of-range error (`none`). -/
def roundF64Nat (a : Nat) : Option Nat :=
  if a ≤ 2 ^ 53 then some a
  else
    let e := f64ExpGo a 0 1024
    let q := a / 2 ^ e
    let r := a % 2 ^ e
    let half := 2 ^ (e - 1)
    let q2 := if r > half ∨ (r = half ∧ q % 2 = 1) then q + 1 else q
    let v := q2 * 2 ^ e
    if v < 2 ^ 1024 then some v else none

/-- Round an integer through float64, keeping the sign. -/
def f64RoundInt (n : Int) : Option Int :=
  (roundF64Nat n.natAbs).map fun v => if n < 0 then -(v : Int) else (v : Int)

mutual

/-- The JSON value Go's `json.Unmarshal` reconstructs when decoding into an
`interface{}` target: strings, booleans and null pass through, every number
goes through float64 (rounded above `2 ^ 53`, an out-of-range number
failing the whole unmarshal), arrays and objects recurse. -/
def jsonNormalize : Json → Option Json
  | .null => some .null
  | .bool b => some (.bool b)
  | .num n => (f64RoundInt n).map Json.num
  | .str s => some (.str s)
  | .arr xs => (jsonNormalizeList xs).map Json.arr
  | .obj fs => (jsonNormalizeFields fs).map Json.obj

/-- `jsonNormalize` on every element of an array. -/
def jsonNormalizeList : List Json → Option (List Json)
  | [] => some []
  | x :: xs =>
    match jsonNormalize x, jsonNormalizeList xs with
    | some y, some ys => some (y :: ys)
    | _, _ => none

/-- `jsonNormalize` on every field value of an object. -/
def jsonNormalizeFields : List (String × Json) → Option (List (String × Json))
  | [] => some []
  | (k, v) :: fs =>
    match jsonNormalize v, jsonNormalizeFields fs with
    | some w, some ws => some ((k, w) :: ws)
    | _, _ => none

end

/-- `json.Unmarshal(body, &envelope)` at the JSON-value level: the body must
be an object, the three string fields must unmarshal, and `payload` (typed
`interface{}` in Go) takes any JSON value — numbers passed through float64,
an out-of-range number failing the whole unmarshal — defaulting to null
when absent. -/
def decodeEnvelope : Json → Option EventEnvelope
  | .obj fields =>
    match decodeStringField fields "event_type",
          decodeStringField fields "occurred_at",
          decodeStringField fields "service_name",
          jsonNormalize ((jlookup fields "payload").getD .null) with
    | some et, some oa, some sn, some pl =>
      some ⟨et, oa, sn, pl⟩
    | _, _, _, _ => none
  | _ => none

/-- A Go `interface{}` value handed to `PublishEvent` as payload: either a
JSON-representable value or one `json.Marshal` rejects (a func, a channel,
`NaN`, …). -/
inductive GoValue where
  | jsonable (j : Json)
  | unencodable

/-- `json.Marshal` on the payload: succeeds exactly on representable values. -/
def marshalPayload : GoValue → Option Json
  | .jsonable j => some j
  | .unencodable => none

/-- `json.Marshal(envelope)` in `PublishEventWithConfig`: the three string
fields always encode, so marshalling fails exactly when the payload does. -/
def marshalEnvelope (eventType occurredAt serviceName : String) (payload : GoValue) :
    Option Json :=
  (marshalPayload payload).map fun j =>
    encodeEnvelope ⟨eventType, occurredAt, serviceName, j⟩

/-- The whole wire pipeline applied to a JSON payload `p`: the publisher's
envelope marshal followed by the dispatch loop's envelope unmarshal and
extraction of the payload handed to the handler. -/
def wireRoundtrip (serviceName occurredAt routingKey : String) (p : Json) :
    Option Json :=
  (marshalEnvelope routingKey occurredAt serviceName (.jsonable p)).bind fun j =>
    (decodeEnvelope j).map EventEnvelope.payload

/-- The live AMQP channel object held by a publisher. `publishOk` records
whether `channel.Publish` succeeds on it (false models a channel that is
non-nil but dead because the broker connection dropped). -/
structure Channel where
  publishOk : Bool

/-- Synchronous outcome of `PublishEventWithConfig` as seen by the caller. -/
inductive PublishResult where
  | ok
  | serializationError
  | publishError
deriving DecidableEq

/-- Whether the outcome is a non-nil Go error. -/
def PublishResult.isErr : PublishResult → Bool
  | .ok => false
  | _ => true

/-- `Publisher.PublishEventWithConfig` (`publisher.go`), step by step:
if the channel pointer is nil the event is only logged and `nil` returned;
otherwise the envelope (with `EventType = routingKey`) is marshalled, a
marshal failure is returned as an error, and finally `channel.Publish` is
called, whose failure is also returned as an error. -/
def publishEventWithConfig (channel : Option Channel)
    (serviceName occurredAt routingKey : String) (payload : GoValue) : PublishResult :=
  match channel with
  | none => .ok
  | some ch =>
    match marshalEnvelope routingKey occurredAt serviceName payload with
    | none => .serializationError
    | some _body => if ch.publishOk then .ok else .publishError

/-- An application handler (`HandlerFunc` in `consumer.go`), abstracted to
its observable effect on settlement: it receives the re-marshalled payload
bytes (here: the payload JSON value) and either returns nil (`true`) or a
non-nil error (`false`). -/
def Handler := Json → Bool

/-- The raw body bytes of a delivery: either bytes that parse as a JSON
value, or bytes that are not JSON at all. -/
inductive Body where
  | json (j : Json)
  | nonJson

/-- `json.Unmarshal(delivery.Body, &envelope)` on raw bytes. -/
def decodeBody : Body → Option EventEnvelope
  | .json j => decodeEnvelope j
  | .nonJson => none

/-- The parts of an `amqp.Delivery` the dispatch loop reads. -/
structure Delivery where
  routingKey : String
  body : Body

/-- How a delivery is settled: `Ack(false)`, `Nack(false, true)` (requeue),
or `Nack(false, false)` (drop). -/
inductive Settle where
  | ack
  | nackRequeue
  | nackDrop
deriving DecidableEq

/-- Observable outcome of the dispatch loop on one delivery: its settlement
and how many times the application handler was invoked. -/
structure DispatchResult where
  settle : Settle
  invocations : Nat
deriving DecidableEq

/-- `c.handlers[delivery.RoutingKey]`: Go map indexing is an EXACT string
lookup.  The registry is modelled as an association list with distinct keys
(the Go map), searched by string equality. -/
def lookupHandler : List (String × Handler) → String → Option Handler
  | [], _ => none
  | (k, h) :: rest, key => if k = key then some h else lookupHandler rest key

/-- One iteration of `Consumer.handleDeliveries` (`consumer.go`): look up the
handler by exact routing key (absent → `Nack(false,false)`, handler never
called); decode the envelope (failure → `Nack(false,false)`, handler never
called); re-marshal the payload (always succeeds on a decoded JSON value);
invoke the handler once, `Ack(false)` on nil and `Nack(false,true)` on
error. -/
def handleDelivery (handlers : List (String × Handler)) (d : Delivery) : DispatchResult :=
  match lookupHandler handlers d.routingKey with
  | none => ⟨.nackDrop, 0⟩
  | some h =>
    match decodeBody d.body with
    | none => ⟨.nackDrop, 0⟩
    | some env => if h env.payload then ⟨.ack, 1⟩ else ⟨.nackRequeue, 1⟩

/-- The dispatch loop over the stream of deliveries: each delivery is settled
independently and the loop continues with the next one. -/
def handleDeliveries (handlers : List (String × Handler)) (ds : List Delivery) :
    List DispatchResult :=
  ds.map (handleDelivery handlers)

/-- All suffixes of a word list, longest first (including the empty one). -/
def suffixes : List String → List (List String)
  | [] => [[]]
  | w :: rest => (w :: rest) :: suffixes rest

/-- AMQP topic-exchange matching of a binding pattern against a routing key,
both split into dot-separated words: `*` matches exactly one word, `#`
matches zero or more words (i.e. the rest of the pattern matches some suffix
of the key), a literal word matches itself.  This models the BROKER's
routing decision (which deliveries reach the consumer's queue); it is not
code of this repository. -/
def topicMatchWords : List String → List String → Bool
  | [], ks => ks.isEmpty
  | p :: ps, ks =>
    if p = "#" then
      (suffixes ks).any fun ks2 => topicMatchWords ps ks2
    else
      match ks with
      | [] => false
      | k :: ks2 => (p = "*" || p = k) && topicMatchWords ps ks2

/-- Split a routing key or binding pattern on dots. -/
def splitDotChars : List Char → List (List Char)
  | [] => [[]]
  | c :: rest =>
    if c = '.' then [] :: splitDotChars rest
    else
      match splitDotChars rest with
      | [] => [[c]]
      | w :: ws => (c :: w) :: ws

/-- Split a string on `.` into its words. -/
def splitDot (s : String) : List String :=
  (splitDotChars s.data).map List.asString

/-- Topic-exchange match on whole strings. -/
def topicMatch (pat key : String) : Bool :=
  topicMatchWords (splitDot pat) (splitDot key)

/-- The mutable state of a `Consumer` relevant to subscription bookkeeping:
the handler registry (a Go map: association list with distinct keys), the
connection flags, the set of broker-side queue bindings (the broker
deduplicates identical `QueueBind` requests), and the number of dispatch
loops started via `channel.Consume` + `go handleDeliveries`. -/
structure ConsumerState where
  handlers : List (String × Handler)
  connected : Bool
  channelPresent : Bool
  brokerBindings : List String
  consumeLoops : Nat

/-- Go map assignment `m[k] = v`: replaces the value under an existing key,
otherwise appends a new entry. -/
def mapInsert (m : List (String × Handler)) (k : String) (h : Handler) :
    List (String × Handler) :=
  if m.any (fun p => p.1 = k) then
    m.map (fun p => if p.1 = k then (k, h) else p)
  else
    m ++ [(k, h)]

/-- The broker's reaction to `QueueBind`: identical (queue, exchange, key)
bindings are idempotent, so the binding set gains the key at most once. -/
def bindKey (bs : List String) (k : String) : List String :=
  if k ∈ bs then bs else bs ++ [k]

/-- `Consumer.Subscribe` (`consumer.go`), broker operations succeeding:
store the handler in the registry; if not connected (or no channel), return
nil at once; otherwise `QueueBind` the key, and — when the registry size is
exactly 1 AFTER the insertion — call `channel.Consume` and start another
`handleDeliveries` loop.  Returns the new state and the Go error. -/
def subscribe (st : ConsumerState) (k : String) (h : Handler) :
    ConsumerState × Option String :=
  let st1 := { st with handlers := mapInsert st.handlers k h }
  if st1.connected && st1.channelPresent then
    let st2 := { st1 with brokerBindings := bindKey st1.brokerBindings k }
    if st2.handlers.length = 1 then
      ({ st2 with consumeLoops := st2.consumeLoops + 1 }, none)
    else
      (st2, none)
  else
    (st1, none)

/-- `Consumer.resubscribe` (`consumer.go`): requires a live connection and
channel, rebinds EVERY key currently in the registry (the full registry, not
a delta), then calls `channel.Consume` and starts a fresh
`handleDeliveries` loop.  `none` models the error return when not
connected. -/
def resubscribe (st : ConsumerState) : Option ConsumerState :=
  if st.connected && st.channelPresent then
    some { st with
      brokerBindings := st.handlers.foldl (fun bs p => bindKey bs p.1) st.brokerBindings,
      consumeLoops := st.consumeLoops + 1 }
  else
    none

/-- The state `Consumer.connect` leaves behind on success: a fresh channel
and `connected = true` (queue and exchange re-declared). -/
def afterSuccessfulConnect (st : ConsumerState) : ConsumerState :=
  { st with connected := true, channelPresent := true }

/-- The tail of `Consumer.reconnect` once a dial has succeeded: `connect`
installs the fresh channel, then `resubscribe` replays the registry. -/
def reconnectResubscribe (st : ConsumerState) : Option ConsumerState :=
  resubscribe (afterSuccessfulConnect st)

/-- The lifecycle flags of a `Publisher` (`publisher.go`).  Note the struct
has NO closed/stopped field: only `connected` and `reconnecting`. -/
structure PubState where
  connected : Bool
  reconnecting : Bool
deriving DecidableEq

/-- The lifecycle flags of a `Consumer` (`consumer.go`), which additionally
carries `stopped`, set by `Close`. -/
structure ConsState where
  connected : Bool
  reconnecting : Bool
  stopped : Bool
deriving DecidableEq

/-- `Publisher.Close`: closes channel and connection (which makes the broker
library fire the registered close notification) and sets
`connected = false`.  No other flag exists to record the shutdown. -/
def pubClose (s : PubState) : PubState :=
  { s with connected := false }

/-- The publisher's connection-monitor goroutine receiving the close
notification: it sets `connected = false` and then spawns `go p.reconnect`.
Nothing in it distinguishes an explicit `Close` from a broker outage. -/
def pubOnCloseNotify (s : PubState) : PubState :=
  { s with connected := false }

/-- The guard at the top of `Publisher.reconnect`: the invocation proceeds
(setting `reconnecting = true`) unless another reconnect is already
running.  It consults ONLY `reconnecting`. -/
def pubReconnectGuard (s : PubState) : Bool :=
  !s.reconnecting

/-- `Publisher.connect` under the model that the dial succeeds: a no-op when
already connected, otherwise installs the connection. -/
def pubConnectOk (s : PubState) : PubState :=
  if s.connected then s else { s with connected := true }

/-- `Consumer.Close`: sets `stopped`, closes stop channel, tears down the
connection. -/
def consClose (s : ConsState) : ConsState :=
  if s.stopped then s else { connected := false, reconnecting := s.reconnecting, stopped := true }

/-- The guard at the top of `Consumer.reconnect`: the invocation returns at
once when a reconnect is already running OR the consumer was stopped. -/
def consReconnectGuard (s : ConsState) : Bool :=
  !s.reconnecting && !s.stopped

/-- A publisher that is connected and idle. -/
def pubConnected : PubState := ⟨true, false⟩

/-- A consumer that is connected and idle. -/
def consConnected : ConsState := ⟨true, false, false⟩

/-- The backoff update in both reconnect loops: `backoff *= 2; if backoff >
maxBackoff { backoff = maxBackoff }`, in seconds, with `maxBackoff = 30`. -/
def nextBackoff (b : Nat) : Nat :=
  if b * 2 > 30 then 30 else b * 2

/-- The value of the `backoff` variable before attempt `n` (0-based) of a
run of the PUBLISHER's reconnect loop in which attempts `0..n-1` all failed:
that loop's only failure mode is a failed dial, and it doubles (capped)
after every failure.  It also describes a consumer run whose failed attempts
all failed at dial; the consumer's resubscription-failure path, which does
NOT double, is modelled by `consDelays` below. -/
def backoffAt : Nat → Nat
  | 0 => 1
  | n + 1 => nextBackoff (backoffAt n)

/-- The delays slept before each of the first `n` attempts of one run of the
publisher's reconnect loop in which every attempt so far failed. -/
def reconnectDelays (n : Nat) : List Nat :=
  (List.range n).map backoffAt

/-- How one iteration of `Consumer.reconnect` (`consumer.go`) can fail:
either `connect` itself returns an error (the loop then doubles the
backoff, capped), or `connect` succeeds but `resubscribe` fails — the loop
then sets `connected = false` and continues WITHOUT touching the backoff. -/
inductive FailKind where
  | dialFail
  | resubFail
deriving DecidableEq

/-- The consumer loop's backoff update after a failed iteration: doubling
(capped) on a dial failure, unchanged on a resubscription failure. -/
def consBackoffStep (b : Nat) : FailKind → Nat
  | .dialFail => nextBackoff b
  | .resubFail => b

/-- The delays slept by a run of `Consumer.reconnect` whose first
iterations failed with the given outcomes, starting from backoff `b` (a run
starts at `b = 1`): each iteration sleeps the current backoff, attempts,
and updates the backoff according to how it failed. -/
def consDelays : List FailKind → Nat → List Nat
  | [], _ => []
  | o :: os, b => b :: consDelays os (consBackoffStep b o)

/-- Abstract state of the reconnect machinery of one Publisher or Consumer
instance: the `reconnecting` guard flag, the number of reconnect-loop bodies
currently executing, and the Consumer's `stopped` flag. -/
structure RecState where
  reconnecting : Bool
  running : Nat
  stopped : Bool
deriving DecidableEq

/-- The state at construction time: no loop running, not stopped. -/
def recInit : RecState := ⟨false, 0, false⟩

/-- Atomic steps of the reconnect machinery; each constructor is one
mutex-protected critical section of `reconnect`/`Close`.  `checkStopped`
selects the Consumer guard (which also tests `stopped`); the Publisher guard
tests only `reconnecting`.
* `enter`: an invocation of `reconnect` passes the guard, sets the flag and
  its loop body starts running.
* `enterSkip`: an invocation hits the guard and returns immediately.
* `exitLoop`: a running loop body finishes; its deferred section clears the
  flag.
* `close`: `Close` sets `stopped` (a no-op for the Publisher model is the
  `close` step never being taken). -/
inductive RecStep (checkStopped : Bool) : RecState → RecState → Prop
  | enter (s : RecState) : s.reconnecting = false →
      (checkStopped = true → s.stopped = false) →
      RecStep checkStopped s ⟨true, s.running + 1, s.stopped⟩
  | enterSkip (s : RecState) :
      s.reconnecting = true ∨ (checkStopped = true ∧ s.stopped = true) →
      RecStep checkStopped s s
  | exitLoop (s : RecState) : 0 < s.running →
      RecStep checkStopped s ⟨false, s.running - 1, s.stopped⟩
  | close (s : RecState) : RecStep checkStopped s ⟨s.reconnecting, s.running, true⟩

/-- States reachable from construction through the reconnect machinery. -/
inductive RecReach (checkStopped : Bool) : RecState → Prop
  | init : RecReach checkStopped recInit
  | step {s t : RecState} : RecReach checkStopped s →
      RecStep checkStopped s t → RecReach checkStopped t

/-- Result of `NewPublisher`: the publisher's channel and connected flag,
the returned error, and whether `go publisher.reconnect` was spawned. -/
structure NewPubResult where
  channel : Option Channel
  connected : Bool
  err : Option String
  reconnectSpawned : Bool

/-- `NewPublisher` (`publisher.go`): empty URL → warn and return a bare
instance; dial succeeds → connected instance; dial fails → log, spawn the
reconnect loop, and still return the instance with a nil error.  Every path
returns `err = none`. -/
def newPublisher (url : String) (connectOk : Bool) : NewPubResult :=
  if url = "" then ⟨none, false, none, false⟩
  else if connectOk then ⟨some ⟨true⟩, true, none, false⟩
  else ⟨none, false, none, true⟩

/-- Result of `NewConsumer`: the consumer state, the returned error, and
whether `go consumer.reconnect` was spawned. -/
structure NewConsResult where
  st : ConsumerState
  err : Option String
  reconnectSpawned : Bool

/-- The consumer state as built by the `Consumer{...}` literal: empty
registry, no connection. -/
def consumerInitState : ConsumerState := ⟨[], false, false, [], 0⟩

/-- `NewConsumer` (`consumer.go`): same structure as `NewPublisher`; every
path returns `err = none`. -/
def newConsumer (url : String) (connectOk : Bool) : NewConsResult :=
  if url = "" then ⟨consumerInitState, none, false⟩
  else if connectOk then ⟨afterSuccessfulConnect consumerInitState, none, false⟩
  else ⟨consumerInitState, none, true⟩

/-- A handler that returns nil. -/
def hTrue : Handler := fun _ => true

/-- A handler that returns a non-nil error. -/
def hFalse : Handler := fun _ => false

/-- The payload of the spec's scenario: `{"id":1,"name":"North"}`. -/
def northPayload : Json := .obj [("id", .num 1), ("name", .str "North")]

/-- The delivery of the spec's scenario: routing key `region.created`, body
the marshalled envelope carrying `northPayload`. -/
def regionDelivery : Delivery :=
  ⟨"region.created",
   .json (encodeEnvelope ⟨"region.created", "2024-01-01T00:00:00Z", "svc", northPayload⟩)⟩

/-- A consumer that is connected with a live channel and empty registry. -/
def consumerConnectedEmpty : ConsumerState := ⟨[], true, true, [], 0⟩

/-- A handler that returns nil exactly when the decoded payload is an object
whose first field is `"id": 1`. -/
def hIdOne : Handler := fun j =>
  match j with
  | .obj (("id", .num 1) :: _) => true
  | _ => false

lemma mem_bindKey_self (bs : List String) (k : String) : k ∈ bindKey bs k := by
  by_cases h : k ∈ bs <;> simp [bindKey, h]

lemma mem_bindKey_of_mem (bs : List String) (k k' : String) (h : k ∈ bs) :
    k ∈ bindKey bs k' := by
  by_cases h' : k' ∈ bs <;> simp [bindKey, h', h]

lemma mem_foldl_bindKey_of_mem (l : List (String × Handler)) (bs : List String)
    (k : String) (h : k ∈ bs) : k ∈ l.foldl (fun b p => bindKey b p.1) bs := by
  induction l generalizing bs with
  | nil => simpa using h
  | cons p l ih => exact ih _ (mem_bindKey_of_mem _ _ _ h)

lemma mem_foldl_bindKey (l : List (String × Handler)) (bs : List String)
    (k : String) (h : k ∈ l.map Prod.fst) :
    k ∈ l.foldl (fun b p => bindKey b p.1) bs := by
  induction l generalizing bs with
  | nil => simp at h
  | cons p l ih =>
    simp only [List.map_cons, List.mem_cons] at h
    rcases h with h | h
    · subst h
      exact mem_foldl_bindKey_of_mem l (bindKey bs p.1) p.1 (mem_bindKey_self bs p.1)
    · exact ih _ h

lemma rec_invariant (checkStopped : Bool) (s : RecState)
    (h : RecReach checkStopped s) :
    s.running = if s.reconnecting then 1 else 0 := by
  induction h with
  | init => rfl
  | step hr hs ih =>
    cases hs with
    | enter hg hstop =>
      rw [hg] at ih
      simp at ih
      simp [ih]
    | enterSkip hg => exact ih
    | exitLoop hpos =>
      simp only [RecState.running, RecState.reconnecting] at *
      split at ih <;> simp <;> omega
    | close => simpa using ih

/-- C1 as stated: at the concrete input of a publisher holding a dead (but
non-nil) channel and an encodable payload, `PublishEventWithConfig` returns
a non-nil error although JSON serialization of the envelope succeeded, so
"error iff serialization fails" is false and a broker-outage condition IS
surfaced to the caller. -/
theorem C1_claim_counterexample :
    ¬ (((publishEventWithConfig (some ⟨false⟩) "svc" "2024-01-01T00:00:00Z"
          "region.created" (.jsonable northPayload)).isErr = true) ↔
       ((marshalEnvelope "region.created" "2024-01-01T00:00:00Z" "svc"
          (.jsonable northPayload)).isNone = true)) := by
  decide

/-- C1 (amended): `PublishEventWithConfig` returns a non-nil error iff a
channel object exists and either JSON serialization of the envelope fails or
the channel-level `Publish` call fails; when the channel pointer is nil the
call returns nil after logging. -/
theorem C1_publish_error_conditions (ch : Option Channel) (sn oa k : String)
    (p : GoValue) :
    ((publishEventWithConfig ch sn oa k p).isErr = true ↔
      ∃ c, ch = some c ∧
        ((marshalEnvelope k oa sn p).isNone = true ∨ c.publishOk = false)) ∧
    (ch = none → publishEventWithConfig ch sn oa k p = .ok) := by
  constructor
  · cases ch with
    | none => simp [publishEventWithConfig, PublishResult.isErr]
    | some c =>
      cases p with
      | jsonable j =>
        cases hc : c.publishOk <;>
          simp [publishEventWithConfig, marshalEnvelope, marshalPayload,
            PublishResult.isErr, hc]
      | unencodable =>
        simp [publishEventWithConfig, marshalEnvelope, marshalPayload,
          PublishResult.isErr]
  · intro h
    subst h
    rfl

/-- C1 witness: the amended theorem applied at a nil channel (returns nil)
and at a live channel with an unencodable payload (returns an error). -/
theorem C1_publish_error_conditions_witness :
    publishEventWithConfig none "svc" "t" "k" (.jsonable .null) = .ok ∧
    (publishEventWithConfig (some ⟨true⟩) "svc" "t" "k" .unencodable).isErr = true := by
  constructor
  · exact (C1_publish_error_conditions none "svc" "t" "k" (.jsonable .null)).2 rfl
  · exact (C1_publish_error_conditions (some ⟨true⟩) "svc" "t" "k" .unencodable).1.mpr
      ⟨⟨true⟩, rfl, Or.inl rfl⟩

/-- C2: evaluation of the embedded lifecycle at the failing input.  After
`Publisher.Close` on a connected publisher, the close notification fires and
the spawned `reconnect` invocation passes its guard (the publisher has no
stopped flag — the guard consults only `reconnecting`), and the subsequent
dial reconnects the publisher; the `Consumer` guard, by contrast, rejects
the invocation after `Consumer.Close` because of its `stopped` flag.  So
`Close` is NOT terminal for the publisher, contradicting the claim. -/
theorem C2_publisher_close_not_terminal :
    pubReconnectGuard (pubOnCloseNotify (pubClose pubConnected)) = true ∧
    (pubConnectOk
      { pubOnCloseNotify (pubClose pubConnected) with reconnecting := true }).connected
      = true ∧
    consReconnectGuard (consClose consConnected) = false := by
  decide

/-- C3: evaluation of the dispatch loop at the failing input.  The broker's
topic exchange does route a `region.created` delivery to a queue bound with
pattern `region.*` (first conjunct), and the delivery's body decodes as a
well-formed envelope (second conjunct), yet the dispatch loop looks the
handler up by EXACT routing key, finds nothing under the literal key
`region.*`, and drops the message with `Nack(false,false)` without invoking
the handler (third conjunct).  The same delivery is dispatched fine when the
registered key is the literal routing key, and the handler then observes
`payload.id == 1` (fourth and fifth conjuncts). -/
theorem C3_wildcard_dispatch_bug :
    topicMatch "region.*" "region.created" = true ∧
    (decodeBody regionDelivery.body).isSome = true ∧
    handleDelivery [("region.*", hTrue)] regionDelivery = ⟨.nackDrop, 0⟩ ∧
    handleDelivery [("region.created", hTrue)] regionDelivery = ⟨.ack, 1⟩ ∧
    handleDelivery [("region.created", hIdOne)] regionDelivery = ⟨.ack, 1⟩ := by
  have hdec : decodeBody (.json (encodeEnvelope
        ⟨"region.created", "2024-01-01T00:00:00Z", "svc",
         .obj [("id", .num 1), ("name", .str "North")]⟩))
      = some ⟨"region.created", "2024-01-01T00:00:00Z", "svc",
              .obj [("id", .num 1), ("name", .str "North")]⟩ := by
    simp [decodeBody, decodeEnvelope, encodeEnvelope, decodeStringField,
      jlookup, jsonNormalize, jsonNormalizeFields,
      show f64RoundInt 1 = some 1 from by decide]
  refine ⟨by decide, by simp [regionDelivery, northPayload, hdec], rfl, ?_, ?_⟩
  · simp [handleDelivery, regionDelivery, northPayload, lookupHandler, hdec,
      hTrue]
  · simp [handleDelivery, regionDelivery, northPayload, lookupHandler, hdec,
      hIdOne]

/-- C4: evaluation of `Subscribe` at the failing input.  On a connected
consumer, `Subscribe("region.created", h1)` followed by
`Subscribe("region.created", h2)` does replace the handler (last wins) and
creates no duplicate broker binding, but the second call starts a SECOND
dispatch loop: the loop-start guard tests `len(handlers) == 1`, which holds
again after the same-key re-registration, so `channel.Consume` runs twice —
contradicting "only the first Subscribe call overall starts the dispatch
loop". -/
theorem C4_resubscribe_starts_second_loop :
    ((subscribe consumerConnectedEmpty "region.created" hTrue).1.consumeLoops = 1) ∧
    ((subscribe (subscribe consumerConnectedEmpty "region.created" hTrue).1
        "region.created" hFalse).1.consumeLoops = 2) ∧
    (lookupHandler
        (subscribe (subscribe consumerConnectedEmpty "region.created" hTrue).1
          "region.created" hFalse).1.handlers "region.created" = some hFalse) ∧
    ((subscribe (subscribe consumerConnectedEmpty "region.created" hTrue).1
        "region.created" hFalse).1.brokerBindings = ["region.created"]) := by
  exact ⟨rfl, rfl, rfl, rfl⟩

/-- C5: settlement of every delivered message.  A body that does not decode
as an `EventEnvelope` is negatively acknowledged without requeue and the
handler is never invoked; a message whose routing key has no registered
handler is negatively acknowledged without requeue; otherwise the handler is
invoked exactly once, the message is acknowledged when it returns nil and
negatively acknowledged WITH requeue when it returns an error; and the loop
settles each delivery independently and continues with the next one. -/
theorem C5_settlement (handlers : List (String × Handler)) (d : Delivery) :
    (decodeBody d.body = none → handleDelivery handlers d = ⟨.nackDrop, 0⟩) ∧
    (lookupHandler handlers d.routingKey = none →
      handleDelivery handlers d = ⟨.nackDrop, 0⟩) ∧
    (∀ h env, lookupHandler handlers d.routingKey = some h →
      decodeBody d.body = some env →
      handleDelivery handlers d =
        if h env.payload then ⟨.ack, 1⟩ else ⟨.nackRequeue, 1⟩) ∧
    (∀ rest : List Delivery, handleDeliveries handlers (d :: rest) =
      handleDelivery handlers d :: handleDeliveries handlers rest) := by
  refine ⟨?_, ?_, ?_, fun rest => rfl⟩
  · intro hdec
    cases hlk : lookupHandler handlers d.routingKey with
    | none => simp [handleDelivery, hlk]
    | some h => simp [handleDelivery, hlk, hdec]
  · intro hlk
    simp [handleDelivery, hlk]
  · intro h env hlk hdec
    simp [handleDelivery, hlk, hdec]

/-- C5 witness: the settlement theorem applied at concrete deliveries — a
non-JSON body is dropped, a key with no handler is dropped, and a decodable
body with a registered handler returning nil is acknowledged after one
invocation. -/
theorem C5_settlement_witness :
    handleDelivery [("k", hTrue)] ⟨"k", .nonJson⟩ = ⟨.nackDrop, 0⟩ ∧
    handleDelivery [] ⟨"k", .nonJson⟩ = ⟨.nackDrop, 0⟩ ∧
    handleDelivery [("k", hTrue)]
      ⟨"k", .json (encodeEnvelope ⟨"k", "t", "s", .null⟩)⟩ = ⟨.ack, 1⟩ ∧
    handleDeliveries [] [⟨"k", .nonJson⟩] = [⟨.nackDrop, 0⟩] := by
  have hdec : decodeBody (.json (encodeEnvelope ⟨"k", "t", "s", .null⟩))
      = some ⟨"k", "t", "s", .null⟩ := by
    simp [decodeBody, decodeEnvelope, encodeEnvelope, decodeStringField,
      jlookup, jsonNormalize]
  refine ⟨(C5_settlement [("k", hTrue)] ⟨"k", .nonJson⟩).1 rfl,
          (C5_settlement [] ⟨"k", .nonJson⟩).2.1 rfl,
          ((C5_settlement [("k", hTrue)]
              ⟨"k", .json (encodeEnvelope ⟨"k", "t", "s", .null⟩)⟩).2.2.1 hTrue
            ⟨"k", "t", "s", .null⟩ rfl hdec).trans rfl,
          ((C5_settlement [] ⟨"k", .nonJson⟩).2.2.2 []).trans rfl⟩

lemma backoffAt_formula (m : Nat) : backoffAt m = min (2 ^ m) 30 := by
  induction m with
  | zero => decide
  | succ m ih =>
    have hp : (2 : Nat) ^ (m + 1) = 2 ^ m * 2 := pow_succ 2 m
    have ha : 0 < (2 : Nat) ^ m := by positivity
    simp only [backoffAt, nextBackoff, ih, hp]
    split <;> omega

lemma nextBackoff_lower (b : Nat) (h : b ≤ 30) : b ≤ nextBackoff b := by
  unfold nextBackoff
  split <;> omega

lemma nextBackoff_le30 (b : Nat) : nextBackoff b ≤ 30 := by
  unfold nextBackoff
  split <;> omega

lemma nextBackoff_pos (b : Nat) (h : 1 ≤ b) : 1 ≤ nextBackoff b := by
  unfold nextBackoff
  split <;> omega

lemma consBackoffStep_lower (b : Nat) (o : FailKind) (h : b ≤ 30) :
    b ≤ consBackoffStep b o := by
  cases o with
  | dialFail => exact nextBackoff_lower b h
  | resubFail => exact le_rfl

lemma consBackoffStep_le30 (b : Nat) (o : FailKind) (h : b ≤ 30) :
    consBackoffStep b o ≤ 30 := by
  cases o with
  | dialFail => exact nextBackoff_le30 b
  | resubFail => exact h

lemma consBackoffStep_pos (b : Nat) (o : FailKind) (h : 1 ≤ b) :
    1 ≤ consBackoffStep b o := by
  cases o with
  | dialFail => exact nextBackoff_pos b h
  | resubFail => exact h

lemma consDelays_length (os : List FailKind) (b : Nat) :
    (consDelays os b).length = os.length := by
  induction os generalizing b with
  | nil => rfl
  | cons o os ih => simp [consDelays, ih]

lemma consDelays_mem_bounds (os : List FailKind) (b : Nat) (h1 : 1 ≤ b)
    (h2 : b ≤ 30) : ∀ d ∈ consDelays os b, 1 ≤ d ∧ d ≤ 30 := by
  induction os generalizing b with
  | nil => simp [consDelays]
  | cons o os ih =>
    intro d hd
    simp only [consDelays, List.mem_cons] at hd
    rcases hd with rfl | hd
    · exact ⟨h1, h2⟩
    · exact ih (consBackoffStep b o) (consBackoffStep_pos b o h1)
        (consBackoffStep_le30 b o h2) d hd

lemma consDelays_chain (os : List FailKind) (b : Nat) (h2 : b ≤ 30) :
    List.Chain' (· ≤ ·) (consDelays os b) := by
  induction os generalizing b with
  | nil => simp [consDelays]
  | cons o os ih =>
    cases os with
    | nil => simp [consDelays]
    | cons o2 os2 =>
      rw [show consDelays (o :: o2 :: os2) b =
          b :: consBackoffStep b o ::
            consDelays os2 (consBackoffStep (consBackoffStep b o) o2) from rfl]
      rw [List.chain'_cons]
      exact ⟨consBackoffStep_lower b o h2,
        ih (consBackoffStep b o) (consBackoffStep_le30 b o h2)⟩

lemma consDelays_replicate (n k : Nat) :
    consDelays (List.replicate n FailKind.dialFail) (backoffAt k) =
      (List.range n).map fun i => backoffAt (k + i) := by
  induction n generalizing k with
  | zero => rfl
  | succ n ih =>
    rw [List.replicate_succ]
    rw [show consDelays
          (FailKind.dialFail :: List.replicate n FailKind.dialFail) (backoffAt k) =
        backoffAt k ::
          consDelays (List.replicate n FailKind.dialFail) (backoffAt (k + 1)) from rfl]
    rw [ih (k + 1), List.range_succ_eq_map]
    simp only [List.map_cons, List.map_map, Nat.add_zero]
    congr 1
    apply List.map_congr_left
    intro i _
    show backoffAt (k + 1 + i) = backoffAt (k + (i + 1))
    congr 1
    omega

lemma reconnectDelays_eq_consDelays (n : Nat) :
    reconnectDelays n = consDelays (List.replicate n FailKind.dialFail) 1 := by
  have h := consDelays_replicate n 0
  rw [show backoffAt 0 = 1 from rfl] at h
  rw [h, reconnectDelays]
  apply List.map_congr_left
  intro i _
  simp

/-- C6 as stated: a run of the consumer's reconnect loop in which the third
attempt connects but fails at resubscription sleeps 1s, 2s, 4s, 4s — the
iteration after a resubscription failure repeats the previous delay instead
of doubling — which differs from the claimed sequence 1s, 2s, 4s, 8s, and
the run continued past a successful dial. -/
theorem C6_claim_counterexample :
    consDelays [.dialFail, .dialFail, .resubFail, .dialFail] 1 = [1, 2, 4, 4] ∧
    reconnectDelays 4 = [1, 2, 4, 8] ∧
    ¬ consDelays [.dialFail, .dialFail, .resubFail, .dialFail] 1
        = reconnectDelays 4 := by
  exact ⟨by decide, by decide, by decide⟩

/-- C6 (amended): for the publisher's reconnect loop — and for every
consumer run whose failed attempts all failed at dial — the delay before
attempt `n` is exactly `min (2 ^ n) 30` seconds, i.e. the non-decreasing
capped sequence 1s, 2s, 4s, 8s, 16s, 30s, 30s, …  A consumer attempt can
also fail at resubscription after a successful dial; the loop then
continues WITHOUT doubling, so the next delay repeats the previous one.  In
every run the delays are non-decreasing, at least 1s and capped at 30s,
with exactly one delay per failed attempt (the loop retries indefinitely
until an attempt fully succeeds or the loop is stopped). -/
theorem C6_backoff_sequence_amended (n : Nat) (os : List FailKind) :
    reconnectDelays n = consDelays (List.replicate n FailKind.dialFail) 1 ∧
    backoffAt n = min (2 ^ n) 30 ∧
    backoffAt n ≤ backoffAt (n + 1) ∧
    (consDelays os 1).length = os.length ∧
    List.Chain' (· ≤ ·) (consDelays os 1) ∧
    (∀ d ∈ consDelays os 1, 1 ≤ d ∧ d ≤ 30) ∧
    reconnectDelays 7 = [1, 2, 4, 8, 16, 30, 30] := by
  refine ⟨reconnectDelays_eq_consDelays n, backoffAt_formula n, ?_,
    consDelays_length os 1, consDelays_chain os 1 (by norm_num),
    consDelays_mem_bounds os 1 le_rfl (by norm_num), by decide⟩
  rw [backoffAt_formula n, backoffAt_formula (n + 1)]
  have h2 : (2 : Nat) ^ n ≤ 2 ^ (n + 1) :=
    Nat.pow_le_pow_right (by norm_num) (Nat.le_succ n)
  omega

/-- C6 witness: the amended theorem applied at a run with three dial
failures and at the counterexample run, discharging the membership
hypothesis at the delay 4. -/
theorem C6_backoff_sequence_amended_witness :
    reconnectDelays 3 = consDelays (List.replicate 3 FailKind.dialFail) 1 ∧
    (1 ≤ 4 ∧ 4 ≤ 30) := by
  have h := C6_backoff_sequence_amended 3 [.dialFail, .dialFail, .resubFail, .dialFail]
  exact ⟨h.1, h.2.2.2.2.2.1 4 (by decide)⟩

lemma roundF64Nat_small (a : Nat) (h : a ≤ 2 ^ 53) : roundF64Nat a = some a := by
  unfold roundF64Nat
  rw [if_pos h]

lemma jsonNormalize_num (n : Int) :
    jsonNormalize (.num n) = (f64RoundInt n).map Json.num := by
  simp [jsonNormalize]

lemma jsonNormalize_num_small (n : Int) (hn : n.natAbs ≤ 2 ^ 53) :
    jsonNormalize (.num n) = some (.num n) := by
  rw [jsonNormalize_num]
  unfold f64RoundInt
  rw [roundF64Nat_small n.natAbs hn]
  have hs : (if n < 0 then -(n.natAbs : Int) else (n.natAbs : Int)) = n := by
    split <;> omega
  show some (Json.num (if n < 0 then -(n.natAbs : Int) else (n.natAbs : Int)))
      = some (Json.num n)
  rw [hs]

lemma wireRoundtrip_eq (k oa sn : String) (p : Json) :
    wireRoundtrip sn oa k p = jsonNormalize p := by
  cases hq : jsonNormalize p <;>
    simp [wireRoundtrip, marshalEnvelope, marshalPayload, encodeEnvelope,
      decodeEnvelope, decodeStringField, jlookup, hq]

set_option exponentiation.threshold 1100 in
set_option maxRecDepth 4096 in
lemma f64RoundInt_pow53_succ :
    f64RoundInt 9007199254740993 = some 9007199254740992 := by
  decide

/-- C7 as stated: at the explicit payload 9007199254740993 = 2 ^ 53 + 1 the
wire round-trip does NOT return the payload: the consumer's unmarshal into
`interface{}` passes the number through float64, which rounds it to
9007199254740992, so the handler-input value is not deep-equal to the
published payload. -/
theorem C7_claim_counterexample :
    wireRoundtrip "svc" "t" "k" (.num 9007199254740993)
      = some (.num 9007199254740992) ∧
    wireRoundtrip "svc" "t" "k" (.num 9007199254740993)
      ≠ some (.num 9007199254740993) := by
  have h1 : wireRoundtrip "svc" "t" "k" (.num 9007199254740993)
      = some (.num 9007199254740992) := by
    rw [wireRoundtrip_eq, jsonNormalize_num, f64RoundInt_pow53_succ]
    rfl
  refine ⟨h1, fun hcon => ?_⟩
  rw [h1] at hcon
  injection hcon with h2
  injection h2 with h3
  exact absurd h3 (by decide)

/-- C7 (amended): the wire round-trip delivers exactly the float64
normalization of the published payload — deep-equal to the payload itself
whenever that normalization is the identity on it, in particular for every
integer payload of magnitude at most 2 ^ 53 — and the handler registered
under the delivery's routing key is invoked with that normalized value. -/
theorem C7_payload_roundtrip_f64 (p q : Json) (k oa sn : String) (h : Handler) :
    wireRoundtrip sn oa k p = jsonNormalize p ∧
    (jsonNormalize p = some p → wireRoundtrip sn oa k p = some p) ∧
    (∀ n : Int, n.natAbs ≤ 2 ^ 53 →
      wireRoundtrip sn oa k (.num n) = some (.num n)) ∧
    (jsonNormalize p = some q →
      handleDelivery [(k, h)] ⟨k, .json (encodeEnvelope ⟨k, oa, sn, p⟩)⟩ =
        (if h q then ⟨.ack, 1⟩ else ⟨.nackRequeue, 1⟩)) := by
  refine ⟨wireRoundtrip_eq k oa sn p, ?_, ?_, ?_⟩
  · intro hp
    rw [wireRoundtrip_eq, hp]
  · intro n hn
    rw [wireRoundtrip_eq, jsonNormalize_num_small n hn]
  · intro hq
    have hdec : decodeBody (.json (encodeEnvelope ⟨k, oa, sn, p⟩))
        = some ⟨k, oa, sn, q⟩ := by
      simp [decodeBody, decodeEnvelope, encodeEnvelope, decodeStringField,
        jlookup, hq]
    simp [handleDelivery, lookupHandler, hdec]

/-- C7 witness: the amended theorem applied at the spec's scenario payload
(whose numbers are small, so normalization is the identity), at the integer
42, and at the dispatch of that payload to a registered handler. -/
theorem C7_payload_roundtrip_f64_witness :
    wireRoundtrip "svc" "t" "region.created" northPayload = some northPayload ∧
    wireRoundtrip "svc" "t" "k" (.num 42) = some (.num 42) ∧
    handleDelivery [("region.created", hTrue)]
      ⟨"region.created",
       .json (encodeEnvelope ⟨"region.created", "t", "svc", northPayload⟩)⟩
      = ⟨.ack, 1⟩ := by
  have hn : jsonNormalize northPayload = some northPayload := by
    simp [northPayload, jsonNormalize, jsonNormalizeFields,
      show f64RoundInt 1 = some 1 from by decide]
  have h := C7_payload_roundtrip_f64 northPayload northPayload
    "region.created" "t" "svc" hTrue
  exact ⟨h.2.1 hn, h.2.2.1 42 (by decide), (h.2.2.2 hn).trans rfl⟩

/-- C8: the subscription registry survives disconnection.  After a
successful reconnect (`connect` then `resubscribe`), the resubscription
succeeds, every routing key in the registry — regardless of when it was
registered — is bound on the broker, exactly one fresh dispatch loop is
started, and the registry itself is unchanged. -/
theorem C8_reconnect_rebinds_full_registry (st : ConsumerState) :
    (reconnectResubscribe st).isSome = true ∧
    ∀ st', reconnectResubscribe st = some st' →
      (∀ k, k ∈ st.handlers.map Prod.fst → k ∈ st'.brokerBindings) ∧
      st'.consumeLoops = st.consumeLoops + 1 ∧
      st'.handlers = st.handlers := by
  have hrfl : reconnectResubscribe st =
      some { st with
              connected := true,
              channelPresent := true,
              brokerBindings :=
                st.handlers.foldl (fun bs p => bindKey bs p.1) st.brokerBindings,
              consumeLoops := st.consumeLoops + 1 } := rfl
  refine ⟨by rw [hrfl]; rfl, ?_⟩
  intro st' hst
  rw [hrfl] at hst
  injection hst with hst
  subst hst
  exact ⟨fun k hk => mem_foldl_bindKey st.handlers st.brokerBindings k hk, rfl, rfl⟩

/-- C8 witness: the rebinding theorem applied to a concrete disconnected
consumer with `"a"` in its registry. -/
theorem C8_reconnect_rebinds_full_registry_witness :
    (reconnectResubscribe ⟨[("a", hTrue)], false, false, [], 0⟩).isSome = true ∧
    "a" ∈ (⟨[("a", hTrue)], true, true, ["a"], 1⟩ : ConsumerState).brokerBindings := by
  have h := C8_reconnect_rebinds_full_registry ⟨[("a", hTrue)], false, false, [], 0⟩
  have h2 := h.2 ⟨[("a", hTrue)], true, true, ["a"], 1⟩ rfl
  exact ⟨h.1, h2.1 "a" (by simp)⟩

/-- C9: at most one reconnect loop is in flight per instance.  In every
state reachable through the reconnect machinery of a Publisher
(`checkStopped = false`) or Consumer (`checkStopped = true`), the number of
concurrently running reconnect-loop bodies is at most one: the guard flag
makes a second invocation return immediately while one is running. -/
theorem C9_at_most_one_reconnect (checkStopped : Bool) (s : RecState)
    (h : RecReach checkStopped s) : s.running ≤ 1 := by
  rw [rec_invariant checkStopped s h]
  split <;> omega

/-- C9 witness: the invariant applied to the initial state of a consumer's
reconnect machinery. -/
theorem C9_at_most_one_reconnect_witness : recInit.running ≤ 1 :=
  C9_at_most_one_reconnect true recInit RecReach.init

/-- C10: `NewPublisher` and `NewConsumer` never return a non-nil error.
With an empty broker URL they return a usable no-op instance — no reconnect
loop is spawned, `PublishEvent` returns nil for every payload, and
`Subscribe` stores the handler, returns nil and starts no dispatch loop —
and when the initial dial fails they still return the instance with a nil
error and spawn the background reconnect loop. -/
theorem C10_constructors_total (url : String) (connectOk : Bool) :
    (newPublisher url connectOk).err = none ∧
    (newConsumer url connectOk).err = none ∧
    (url = "" →
      (newPublisher url connectOk).reconnectSpawned = false ∧
      (newConsumer url connectOk).reconnectSpawned = false ∧
      (∀ sn oa k p,
        publishEventWithConfig (newPublisher url connectOk).channel sn oa k p = .ok) ∧
      (∀ k h, (subscribe (newConsumer url connectOk).st k h).2 = none ∧
        lookupHandler (subscribe (newConsumer url connectOk).st k h).1.handlers k
          = some h ∧
        (subscribe (newConsumer url connectOk).st k h).1.consumeLoops = 0)) ∧
    (url ≠ "" → connectOk = false →
      (newPublisher url connectOk).reconnectSpawned = true ∧
      (newConsumer url connectOk).reconnectSpawned = true) := by
  by_cases hu : url = ""
  · subst hu
    refine ⟨rfl, rfl, fun _ => ⟨rfl, rfl, fun sn oa k p => rfl, fun k h => ?_⟩,
      fun hne _ => absurd rfl hne⟩
    refine ⟨rfl, ?_, rfl⟩
    simp [newConsumer, subscribe, consumerInitState, mapInsert, lookupHandler]
  · cases connectOk with
    | false =>
      simp [newPublisher, newConsumer, hu]
    | true =>
      refine ⟨?_, ?_, fun h => absurd h hu, fun _ h => by simp at h⟩ <;>
        simp [newPublisher, newConsumer, hu]

/-- C10 witness: the constructor theorem applied at an empty URL (no-op
instance, nil errors, handler stored) and at a failing dial (reconnect loop
spawned, nil error). -/
theorem C10_constructors_total_witness :
    (newPublisher "" true).err = none ∧
    (subscribe (newConsumer "" true).st "k" hTrue).2 = none ∧
    lookupHandler (subscribe (newConsumer "" true).st "k" hTrue).1.handlers "k"
      = some hTrue ∧
    (newPublisher "amqp://h" false).reconnectSpawned = true := by
  have h1 := C10_constructors_total "" true
  have h2 := C10_constructors_total "amqp://h" false
  exact ⟨h1.1, ((h1.2.2.1 rfl).2.2.2 "k" hTrue).1, ((h1.2.2.1 rfl).2.2.2 "k" hTrue).2.1,
    (h2.2.2.2 (by decide) rfl).1⟩

end RabbitCommon
